import Mathlib

/-!
Shallow embedding of the session-manager core of `packages/tdl/src/client.js`
(the `Client` class together with its helper `TdlDeferred`), and proofs of the
spec's testable properties about it.  Effects (event-bus publications, engine
sends, deferred firings) are made observable as explicit event traces; the
cooperative async control flow is modelled as sequential state passing.
-/

namespace Tdl

/-- Single-fire deferred gate (`TdlDeferred` in client.js): an optional
registered resolver (identified here by a numeric token, standing for the
`{resolve, reject}` pair) and a `_done` flag. -/
structure TdlDeferred (R E : Type) where
  innerDefer : Option Nat
  done : Bool
deriving DecidableEq

/-- Observable firing of a deferred gate's registered resolver. -/
inductive DeferFire (R E : Type) where
  | resolved (resolver : Nat) (r : R)
  | rejected (resolver : Nat) (e : E)
deriving DecidableEq

/-- `isPending()`: "Not done or defer not set" — the source returns `!_done`. -/
def TdlDeferred.isPending {R E : Type} (d : TdlDeferred R E) : Bool := !d.done

def TdlDeferred.isDone {R E : Type} (d : TdlDeferred R E) : Bool := d.done

def TdlDeferred.isDeferSet {R E : Type} (d : TdlDeferred R E) : Bool := d.innerDefer.isSome

/-- `setDefer(defer)`: overwrite the registered resolver. -/
def TdlDeferred.setDefer {R E : Type} (d : TdlDeferred R E) (resolver : Nat) : TdlDeferred R E :=
  { d with innerDefer := some resolver }

/-- `resolve(result)`: `if (this._done || !this._innerDefer) return`, else mark
done and fire the registered resolver's `resolve`. -/
def TdlDeferred.resolve {R E : Type} (d : TdlDeferred R E) (r : R) :
    TdlDeferred R E × List (DeferFire R E) :=
  if d.done then (d, []) else
  match d.innerDefer with
  | none => (d, [])
  | some k => ({ d with done := true }, [.resolved k r])

/-- `reject(error)`: same guard as `resolve`, firing the resolver's `reject`. -/
def TdlDeferred.reject {R E : Type} (d : TdlDeferred R E) (e : E) :
    TdlDeferred R E × List (DeferFire R E) :=
  if d.done then (d, []) else
  match d.innerDefer with
  | none => (d, [])
  | some k => ({ d with done := true }, [.rejected k e])

/-- One external call made against a deferred gate. -/
inductive DCall (R E : Type) where
  | res (r : R)
  | rej (e : E)
deriving DecidableEq

def applyCall {R E : Type} (d : TdlDeferred R E) : DCall R E → TdlDeferred R E × List (DeferFire R E)
  | .res r => d.resolve r
  | .rej e => d.reject e

/-- Run a sequence of resolve/reject calls against a gate, collecting all
resolver firings in order. -/
def runCalls {R E : Type} (d : TdlDeferred R E) : List (DCall R E) → TdlDeferred R E × List (DeferFire R E)
  | [] => (d, [])
  | c :: cs =>
    ((runCalls (applyCall d c).1 cs).1,
     (applyCall d c).2 ++ (runCalls (applyCall d c).1 cs).2)

/-- The firing a call would produce through resolver `k`. -/
def fireOf {R E : Type} (k : Nat) : DCall R E → DeferFire R E
  | .res r => .resolved k r
  | .rej e => .rejected k e

/-- Modelled from the spec: the `Version` class is imported from `./version`,
which is not among the provided sources.  §3 (EngineVersion) and §4.4 say the
handshake shape is "chosen by comparing EngineVersion against a fixed
threshold"; we model versions as dotted numeric triples with the usual
lexicographic order, and `gte` as its reflexive comparison. -/
structure Version where
  major : Nat
  minor : Nat
  patch : Nat
deriving DecidableEq

/-- Modelled from the spec: lexicographic greater-or-equal on version triples. -/
def Version.gte (a b : Version) : Bool :=
  if a.major ≠ b.major then a.major > b.major
  else if a.minor ≠ b.minor then a.minor > b.minor
  else a.patch ≥ b.patch

/-- Modelled from the spec: parse a dotted version string such as "1.8.6"
(`new Version(update.value.value)`; the parser lives in the missing
`./version`). -/
def parseVersion (s : String) : Version :=
  match (s.splitOn ".").map (fun t => t.toNat?.getD 0) with
  | [a, b, c] => ⟨a, b, c⟩
  | [a, b] => ⟨a, b, 0⟩
  | [a] => ⟨a, 0, 0⟩
  | _ => ⟨0, 0, 0⟩

/-- `const TDLIB_1_8_6 = new Version('1.8.6')`. -/
def TDLIB_1_8_6 : Version := ⟨1, 8, 6⟩

/-- `const TDLIB_DEFAULT = new Version('1.8.0')`. -/
def TDLIB_DEFAULT : Version := ⟨1, 8, 0⟩

/-- `const TDL_MAGIC = '6c47e6b71ea'` — the reserved internal sentinel
correlation id. -/
def TDL_MAGIC : String := "6c47e6b71ea"

/-- TDLib connection states (`Td$ConnectionState`). -/
inductive ConnectionState where
  | connectionStateWaitingForNetwork
  | connectionStateConnectingToProxy
  | connectionStateConnecting
  | connectionStateUpdating
  | connectionStateReady
deriving DecidableEq

/-- TDLib option values, as far as `_handleUpdate` inspects them. -/
inductive OptionValue where
  | optionValueString (v : String)
  | optionValueInteger (i : Int)
  | optionValueBoolean (b : Bool)
  | optionValueEmpty
deriving DecidableEq

/-- TDLib authorization states (`authorization_state._`). -/
inductive AuthorizationState where
  | waitTdlibParameters
  | waitEncryptionKey
  | waitPhoneNumber
  | waitEmailAddress
  | waitEmailCode
  | waitOtherDeviceConfirmation (link : String)
  | waitCode
  | waitRegistration
  | waitPassword (hint : String)
  | ready
  | closed
  | loggingOut
  | closing
deriving DecidableEq

/-- Body of a non-error engine message: its discriminant (`_`) together with
the payload fields `_handleUpdate` inspects.  The three privileged update kinds
are distinguished; every other discriminant is `other kind`. -/
inductive UpdateMsg where
  | updateOption (name : String) (value : OptionValue)
  | updateConnectionState (state : ConnectionState)
  | updateAuthorizationState (auth : AuthorizationState)
  | other (kind : String)
deriving DecidableEq

/-- A TDLib `error` object: its `message` and its optional `@extra`
correlation field. -/
structure ErrorMsg where
  message : String
  extra : Option String
deriving DecidableEq

/-- A value published on the `error` channel or used to reject a gate:
a TDLib error object, a `TdlError` wrapper, or a plain `Error(msg)`. -/
inductive ErrVal where
  | td (e : ErrorMsg)
  | tdl (msg : String)
  | err (msg : String)
deriving DecidableEq

/-- `tdlibParameters` configuration record (merged defaults).  The optional
`underscoreTag` models the forbidden `_` property checked by `_handleAuth`. -/
structure TdlibParameters where
  underscoreTag : Option String
  api_id : Option Int
  api_hash : Option String
  use_message_database : Bool
  use_secret_chats : Bool
  system_language_code : String
  application_version : String
  device_model : String
  system_version : String
  enable_storage_optimizer : Bool
deriving DecidableEq

/-- Merged strict configuration (`StrictConfigType`), as read by the client. -/
structure StrictConfig where
  databaseDirectory : String
  filesDirectory : String
  databaseEncryptionKey : String
  verbosityLevel : Int
  receiveTimeout : Int
  skipOldUpdates : Bool
  useTestDc : Bool
  useMutableRename : Bool
  useDefaultVerbosityLevel : Bool
  disableAuth : Bool
  apiId : Option Int
  apiHash : Option String
  tdlibParameters : TdlibParameters
deriving DecidableEq

/-- Raw `tdlibParameters` object of the user-supplied options, as inspected by
the constructor's credential checks. -/
structure TdlibParametersInput where
  api_id : Option Int
  api_hash : Option String
deriving DecidableEq

/-- User-supplied options (`ConfigType`), as inspected by the constructor's
credential checks (which read `options` directly, before merging). -/
structure ConfigInput where
  apiId : Option Int
  apiHash : Option String
  tdlibParameters : Option TdlibParametersInput
deriving DecidableEq

/-- JavaScript truthiness of a possibly-absent number: `undefined` and `0`
are falsy. -/
def truthyOptInt : Option Int → Bool
  | none => false
  | some n => n ≠ 0

/-- JavaScript truthiness of a possibly-absent string: `undefined` and `''`
are falsy. -/
def truthyOptStr : Option String → Bool
  | none => false
  | some s => s ≠ ""

/-- The two `TypeError`s the constructor can throw. -/
inductive CtorError where
  | typeErrorApiId
  | typeErrorApiHash
deriving DecidableEq

/-- The `Client` constructor's credential validation: it throws a `TypeError`
if neither `options.apiId` nor `options.tdlibParameters?.api_id` is truthy,
and likewise for the hash.  The source constructor performs no engine calls
(it only merges options and stores the tdlib instance), so `.ok` means "client
object created, engine untouched" and `.error` means the `TypeError` escaped
before any client existed. -/
def clientConstructor (options : ConfigInput) : Except CtorError Unit :=
  if !truthyOptInt options.apiId
      && !truthyOptInt (options.tdlibParameters.bind TdlibParametersInput.api_id) then
    .error .typeErrorApiId
  else if !truthyOptStr options.apiHash
      && !truthyOptStr (options.tdlibParameters.bind TdlibParametersInput.api_hash) then
    .error .typeErrorApiHash
  else
    .ok ()

/-- User-flow login callbacks (`LoginUser`); each boolean argument is the
retry flag. -/
structure LoginUser where
  getPhoneNumber : Bool → String
  getAuthCode : Bool → String
  getPassword : String → Bool → String
  getEmailAddress : Unit → String
  getEmailCode : Unit → String
  getName : Unit → String × Option String

/-- Bot-flow login callbacks (`LoginBot`). -/
structure LoginBot where
  getToken : Bool → String

/-- `LoginDetails`: tagged variant of user vs bot callbacks. -/
inductive LoginDetails where
  | user (u : LoginUser)
  | bot (b : LoginBot)

/-- Requests the client sends to the engine, as far as the claims observe
them.  The handshake requests carry the configuration snapshot they are built
from. -/
inductive Req where
  | setTdlibParametersFlat (cfg : StrictConfig)
  | setTdlibParametersNested (cfg : StrictConfig)
  | checkDatabaseEncryptionKey (key : String)
  | setAuthenticationPhoneNumber (phone : String)
  | checkAuthenticationBotToken (token : String)
  | setAuthenticationEmailAddress (email : String)
  | checkAuthenticationEmailCode (code : String)
  | checkAuthenticationCode (code : String)
  | registerUser (firstName : String) (lastName : String)
  | checkAuthenticationPassword (password : String)
  | closeReq
  | genericReq (kind : String)
deriving DecidableEq

/-- An invocation of a `LoginDetails` callback, recording the retry flag it
was passed. -/
inductive CbCall where
  | getAuthCode (retry : Bool)
  | getPhoneNumber (retry : Bool)
  | getPassword (hint : String) (retry : Bool)
  | getToken (retry : Bool)
  | getEmailAddress
  | getEmailCode
  | confirmOnAnotherDevice (link : String)
  | getName
deriving DecidableEq

/-- Observable effects of the client: event-bus publications, engine calls,
deferred-gate firings, pending-request resolutions, and the internal
suspension marker for `_waitLogin`. -/
inductive Ev where
  | emitResponse
  | emitUpdate (u : UpdateMsg)
  | emitError (e : ErrVal)
  | emitDestroy
  | emitAuthNeeded
  | emitAuthNotNeeded
  | emitResumeSignal
  | send (extra : Option String) (r : Req)
  | callCb (c : CbCall)
  | connectFire (f : DeferFire Unit ErrVal)
  | loginFire (f : DeferFire Unit ErrVal)
  | fetchResolve (deferId : Nat) (u : UpdateMsg)
  | fetchReject (deferId : Nat) (e : ErrorMsg)
  | engineDestroy
  | executeLog (level : Int)
  | loopStarted
  | awaitLogin (a : AuthorizationState)
deriving DecidableEq

/-- The requests sent in a trace. -/
def sentReqs : List Ev → List Req
  | [] => []
  | .send _ r :: t => r :: sentReqs t
  | _ :: t => sentReqs t

/-- The errors published on the `error` channel in a trace. -/
def emittedErrors : List Ev → List ErrVal
  | [] => []
  | .emitError e :: t => e :: emittedErrors t
  | _ :: t => emittedErrors t

/-- The login-callback invocations in a trace. -/
def cbCalls : List Ev → List CbCall
  | [] => []
  | .callCb c :: t => c :: cbCalls t
  | _ :: t => cbCalls t

/-- The pending-request resolutions/rejections in a trace. -/
def fetchEvents : List Ev → List Ev
  | [] => []
  | .fetchResolve d u :: t => .fetchResolve d u :: fetchEvents t
  | .fetchReject d e :: t => .fetchReject d e :: fetchEvents t
  | _ :: t => fetchEvents t

/-- The `update`-channel publications in a trace. -/
def updateEmissions : List Ev → List UpdateMsg
  | [] => []
  | .emitUpdate u :: t => u :: updateEmissions t
  | _ :: t => updateEmissions t

/-- `Map.get` on the `_fetching` map (association list keyed by `@extra`,
in insertion order and without duplicate keys). -/
def jsMapGet (m : List (String × Nat)) (k : String) : Option Nat :=
  match m with
  | [] => none
  | p :: rest => if p.1 = k then some p.2 else jsMapGet rest k

/-- `Map.set`: silently replaces an existing entry in place, appends
otherwise. -/
def jsMapSet (m : List (String × Nat)) (k : String) (v : Nat) : List (String × Nat) :=
  match m with
  | [] => [(k, v)]
  | p :: rest => if p.1 = k then (k, v) :: rest else p :: jsMapSet rest k v

/-- `Map.delete` (a JS map never holds duplicate keys, so removing every
occurrence of the key is the same operation). -/
def jsMapDelete (m : List (String × Nat)) (k : String) : List (String × Nat) :=
  match m with
  | [] => []
  | p :: rest => if p.1 = k then jsMapDelete rest k else p :: jsMapDelete rest k

/-- The mutable state of a `Client` instance, together with the modelled
behavior of the engine collaborator (`engineCreateFails` says whether
`tdlib.create()` would throw).  `loginListener` models the once-listener that
`login()` registers on `auth-needed` (it sets `_loginDetails` when that event
fires). -/
structure ClientCore where
  options : StrictConfig
  engineCreateFails : Bool
  client : Option Unit
  initialized : Bool
  paused : Bool
  connectionState : ConnectionState
  connectDefer : TdlDeferred Unit ErrVal
  authNeeded : Bool
  loginListener : Option LoginDetails
  loginDetails : Option LoginDetails
  loginDefer : TdlDeferred Unit ErrVal
  version : Version
  fetching : List (String × Nat)

/-- `_catchError(err)`: reject whichever of `_connectDefer`/`_loginDefer` is
still pending; if neither is, publish the error on the `error` channel. -/
def catchError (s : ClientCore) (v : ErrVal) : ClientCore × List Ev :=
  let cP := s.connectDefer.isPending
  let lP := s.loginDefer.isPending
  if cP || lP then
    let c := if cP then s.connectDefer.reject v else (s.connectDefer, [])
    let l := if lP then s.loginDefer.reject v else (s.loginDefer, [])
    ({ s with connectDefer := c.1, loginDefer := l.1 },
     c.2.map .connectFire ++ l.2.map .loginFire)
  else
    (s, [.emitError v])

/-- `_emitErrWithoutExtra(error)`: strip `@extra`, then `_catchError`. -/
def emitErrWithoutExtra (s : ClientCore) (e : ErrorMsg) : ClientCore × List Ev :=
  catchError s (.td { e with extra := none })

/-- `resume()`: clear the pause flag and publish the internal resume signal
if paused; no-op otherwise. -/
def resume (s : ClientCore) : ClientCore × List Ev :=
  if s.paused then ({ s with paused := false }, [.emitResumeSignal]) else (s, [])

/-- `destroy()`: no-op without an engine handle; otherwise release the handle,
null it, `resume()`, and publish `destroy`.  Note it never touches
`_fetching`. -/
def destroy (s : ClientCore) : ClientCore × List Ev :=
  match s.client with
  | none => (s, [])
  | some _ =>
    let s1 := { s with client := none }
    let r := resume s1
    (r.1, [.engineDestroy] ++ r.2 ++ [.emitDestroy])

/-- `_send(request)`: dropped silently when the engine handle is gone. -/
def sendRaw (s : ClientCore) (extra : Option String) (r : Req) : List Ev :=
  if s.client.isSome then [.send extra r] else []

/-- `_sendTdl(request)`: `_send` with `@extra` set to the reserved sentinel. -/
def sendTdl (s : ClientCore) (r : Req) : List Ev :=
  sendRaw s (some TDL_MAGIC) r

/-- `_handleUserError(error, loginDetails)`: the user-flow retry table
(the switch's fall-through of the two code cases is the disjunction). -/
def handleUserError (s : ClientCore) (e : ErrorMsg) (u : LoginUser) : ClientCore × List Ev :=
  if e.message = "PHONE_CODE_EMPTY" ∨ e.message = "PHONE_CODE_INVALID" then
    (s, [.callCb (.getAuthCode true)]
        ++ sendTdl s (.checkAuthenticationCode (u.getAuthCode true)))
  else if e.message = "PHONE_NUMBER_INVALID" then
    (s, [.callCb (.getPhoneNumber true)]
        ++ sendTdl s (.setAuthenticationPhoneNumber (u.getPhoneNumber true)))
  else if e.message = "PASSWORD_HASH_INVALID" then
    (s, [.callCb (.getPassword "" true)]
        ++ sendTdl s (.checkAuthenticationPassword (u.getPassword "" true)))
  else
    emitErrWithoutExtra s e

/-- `_handleBotError(error, loginDetails)`: the bot-flow retry table. -/
def handleBotError (s : ClientCore) (e : ErrorMsg) (b : LoginBot) : ClientCore × List Ev :=
  if e.message = "ACCESS_TOKEN_INVALID" then
    (s, [.callCb (.getToken true)]
        ++ sendTdl s (.checkAuthenticationBotToken (b.getToken true)))
  else
    emitErrWithoutExtra s e

/-- `_handleError(error)`: correlate by `@extra`; a matching pending request
is rejected with the stripped error and removed; the reserved sentinel routes
to the auth-flow error handlers; anything else is published raw on `error`. -/
def handleError (s : ClientCore) (e : ErrorMsg) : ClientCore × List Ev :=
  match e.extra with
  | some id =>
    match jsMapGet s.fetching id with
    | some d =>
      ({ s with fetching := jsMapDelete s.fetching id },
       [.fetchReject d { e with extra := none }])
    | none =>
      if id = TDL_MAGIC then
        match s.loginDetails with
        | none => emitErrWithoutExtra s e
        | some (.user u) => handleUserError s e u
        | some (.bot b) => handleBotError s e b
      else
        (s, [.emitError (.td e)])
  | none => (s, [.emitError (.td e)])

/-- `_authHasNeeded()`: on first need, set the flag and publish `auth-needed`
(which synchronously runs `login()`'s once-listener, installing
`_loginDetails`); return the login details, or the invariant-violation
message when they are still unset. -/
def authHasNeeded (s : ClientCore) : ClientCore × List Ev × Except String LoginDetails :=
  if s.authNeeded then
    (s, [],
     match s.loginDetails with
     | some ld => .ok ld
     | none => .error "_authHasNeeded: (_authNeeded true) loginDetails should be set")
  else
    let s1 := { s with authNeeded := true }
    let s2 :=
      match s1.loginListener with
      | some ld => { s1 with loginDetails := some ld, loginListener := none }
      | none => s1
    (s2, [.emitAuthNeeded],
     match s2.loginDetails with
     | some ld => .ok ld
     | none => .error "_authHasNeeded: (_authNeeded false) loginDetails should be set")

/-- The second `switch` of `_handleAuth`, reached after `await _waitLogin()`:
dispatch the credential-waiting states through the login callbacks.  The
`Option String` is a thrown error (an invariant violation), which the caller's
`.catch` funnels to `_catchError`. -/
def handleAuthPostWait (s : ClientCore) (a : AuthorizationState) :
    ClientCore × List Ev × Option String :=
  match a with
  | .waitPhoneNumber =>
    let r := authHasNeeded s
    match r.2.2 with
    | .error msg => (r.1, r.2.1, some msg)
    | .ok (.user u) =>
      (r.1, r.2.1 ++ [.callCb (.getPhoneNumber false)]
        ++ sendTdl r.1 (.setAuthenticationPhoneNumber (u.getPhoneNumber false)), none)
    | .ok (.bot b) =>
      (r.1, r.2.1 ++ [.callCb (.getToken false)]
        ++ sendTdl r.1 (.checkAuthenticationBotToken (b.getToken false)), none)
  | .waitEmailAddress =>
    let r := authHasNeeded s
    match r.2.2 with
    | .error msg => (r.1, r.2.1, some msg)
    | .ok (.bot _) => (r.1, r.2.1, none)
    | .ok (.user u) =>
      (r.1, r.2.1 ++ [.callCb .getEmailAddress]
        ++ sendTdl r.1 (.setAuthenticationEmailAddress (u.getEmailAddress ())), none)
  | .waitEmailCode =>
    let r := authHasNeeded s
    match r.2.2 with
    | .error msg => (r.1, r.2.1, some msg)
    | .ok (.bot _) => (r.1, r.2.1, none)
    | .ok (.user u) =>
      (r.1, r.2.1 ++ [.callCb .getEmailCode]
        ++ sendTdl r.1 (.checkAuthenticationEmailCode (u.getEmailCode ())), none)
  | .waitOtherDeviceConfirmation link =>
    let r := authHasNeeded s
    match r.2.2 with
    | .error msg => (r.1, r.2.1, some msg)
    | .ok (.bot _) => (r.1, r.2.1, none)
    | .ok (.user _) => (r.1, r.2.1 ++ [.callCb (.confirmOnAnotherDevice link)], none)
  | .waitCode =>
    let r := authHasNeeded s
    match r.2.2 with
    | .error msg => (r.1, r.2.1, some msg)
    | .ok (.bot _) => (r.1, r.2.1, none)
    | .ok (.user u) =>
      (r.1, r.2.1 ++ [.callCb (.getAuthCode false)]
        ++ sendTdl r.1 (.checkAuthenticationCode (u.getAuthCode false)), none)
  | .waitRegistration =>
    let r := authHasNeeded s
    match r.2.2 with
    | .error msg => (r.1, r.2.1, some msg)
    | .ok (.bot _) => (r.1, r.2.1, none)
    | .ok (.user u) =>
      let nm := u.getName ()
      (r.1, r.2.1 ++ [.callCb .getName]
        ++ sendTdl r.1 (.registerUser nm.1 (nm.2.getD "")), none)
  | .waitPassword hint =>
    let r := authHasNeeded s
    match r.2.2 with
    | .error msg => (r.1, r.2.1, some msg)
    | .ok (.bot _) => (r.1, r.2.1, none)
    | .ok (.user u) =>
      (r.1, r.2.1 ++ [.callCb (.getPassword hint false)]
        ++ sendTdl r.1 (.checkAuthenticationPassword (u.getPassword hint false)), none)
  | .ready =>
    let l := s.loginDefer.resolve ()
    ({ s with loginDefer := l.1 }, l.2.map .loginFire, none)
  | _ => (s, [], none)

/-- `_handleAuth(update)`.  The early states are handled before
`await _waitLogin()`; the remaining ones proceed to the post-wait dispatch
when `login()` has already registered its resolver, and otherwise suspend
(recorded as an `awaitLogin` marker, since the continuation then runs only
after a later `login()` call). -/
def handleAuth (s : ClientCore) (a : AuthorizationState) :
    ClientCore × List Ev × Option String :=
  match a with
  | .waitTdlibParameters =>
    if s.version.gte TDLIB_1_8_6 then
      if s.options.tdlibParameters.underscoreTag.isSome then
        (s, [], some "tdlibParameters must not contain the _ property")
      else
        let evs := sendTdl s (.setTdlibParametersFlat s.options)
        let c := s.connectDefer.resolve ()
        ({ s with connectDefer := c.1 }, evs ++ c.2.map .connectFire, none)
    else
      (s, sendTdl s (.setTdlibParametersNested s.options), none)
  | .waitEncryptionKey =>
    let evs := sendTdl s (.checkDatabaseEncryptionKey s.options.databaseEncryptionKey)
    let c := s.connectDefer.resolve ()
    ({ s with connectDefer := c.1 }, evs ++ c.2.map .connectFire, none)
  | .closed =>
    let v : ErrVal := .err "Received authorizationStateClosed"
    let c := s.connectDefer.reject v
    let l := s.loginDefer.reject v
    let s1 := { s with connectDefer := c.1, loginDefer := l.1 }
    let d := destroy s1
    (d.1, c.2.map .connectFire ++ l.2.map .loginFire ++ d.2, none)
  | _ =>
    let pre : List Ev :=
      if a = .ready ∧ s.authNeeded = false then [.emitAuthNotNeeded] else []
    if s.loginDefer.isDeferSet then
      let r := handleAuthPostWait s a
      (r.1, pre ++ r.2.1, r.2.2)
    else
      (s, pre ++ [.awaitLogin a], none)

/-- `_handleUpdate(update)`: the three privileged update kinds are always
published on `update` (option changes additionally record the engine version,
connection-state changes update the stored state, authorization-state changes
drive the auth machine, whose thrown errors are funnelled to `_catchError`);
every other kind is suppressed exactly when `skipOldUpdates` is set and the
stored connection state is `connectionStateUpdating`. -/
def handleUpdate (s : ClientCore) (u : UpdateMsg) : ClientCore × List Ev :=
  match u with
  | .updateOption name value =>
    let s1 :=
      match value with
      | .optionValueString v =>
        if name = "version" then { s with version := parseVersion v } else s
      | _ => s
    (s1, [.emitUpdate u])
  | .updateConnectionState st =>
    ({ s with connectionState := st }, [.emitUpdate u])
  | .updateAuthorizationState a =>
    if s.options.disableAuth then
      (s, [.emitUpdate u])
    else
      let r := handleAuth s a
      match r.2.2 with
      | some msg =>
        let c := catchError r.1 (.tdl msg)
        (c.1, [.emitUpdate u] ++ r.2.1 ++ c.2)
      | none => (r.1, [.emitUpdate u] ++ r.2.1)
  | .other _ =>
    if s.options.skipOldUpdates = true ∧ s.connectionState = .connectionStateUpdating then
      (s, [])
    else
      (s, [.emitUpdate u])

/-- Feed a sequence of non-error messages through the router's update path,
collecting all effects in order. -/
def routeAll (s : ClientCore) : List UpdateMsg → ClientCore × List Ev
  | [] => (s, [])
  | u :: rest =>
    ((routeAll (handleUpdate s u).1 rest).1,
     (handleUpdate s u).2 ++ (routeAll (handleUpdate s u).1 rest).2)

/-- An incoming engine message, as classified by `_handleResponse`: an error
object, or a non-error body with an optional `@extra` correlation field. -/
inductive InMsg where
  | err (e : ErrorMsg)
  | nonError (extra : Option String) (u : UpdateMsg)
deriving DecidableEq

/-- `_handleResponse(res)`: publish `response`; route errors to
`_handleError`; resolve a matching pending request with the payload (minus
`@extra`) and remove it; drop sentinel-correlated non-errors; treat everything
else as an update. -/
def handleResponse (s : ClientCore) (m : InMsg) : ClientCore × List Ev :=
  match m with
  | .err e =>
    let r := handleError s e
    (r.1, [.emitResponse] ++ r.2)
  | .nonError extra u =>
    match extra with
    | some id =>
      match jsMapGet s.fetching id with
      | some d =>
        ({ s with fetching := jsMapDelete s.fetching id },
         [.emitResponse, .fetchResolve d u])
      | none =>
        if id = TDL_MAGIC then
          (s, [.emitResponse])
        else
          let r := handleUpdate s u
          (r.1, [.emitResponse] ++ r.2)
    | none =>
      let r := handleUpdate s u
      (r.1, [.emitResponse] ++ r.2)

/-- `_init()`: set the log verbosity (unless deferred to the default), create
the engine handle (whose failure is funnelled to `_catchError` and aborts
initialization), mark the client initialized, resolve `connectGate`
immediately when auth is disabled, and start the receive loop. -/
def init (s : ClientCore) : ClientCore × List Ev :=
  if s.engineCreateFails then
    catchError s (.tdl "Error while creating client")
  else
    let evs0 : List Ev :=
      if s.options.useDefaultVerbosityLevel then [] else [.executeLog s.options.verbosityLevel]
    let s1 := { s with client := some (), initialized := true }
    if s1.options.disableAuth then
      let c := s1.connectDefer.resolve ()
      ({ s1 with connectDefer := c.1 }, evs0 ++ c.2.map .connectFire ++ [.loopStarted])
    else
      (s1, evs0 ++ [.loopStarted])

/-- Outcome of the promise returned by `connect()`. -/
inductive ConnectOutcome where
  | rejected (msg : String)
  | proceeded
deriving DecidableEq

/-- `connect()`: reject immediately when already initialized (with the
already-initialized message if the handle is live, the cannot-re-initialize
message if it was destroyed); otherwise register the caller's resolver on
`connectGate` and run `_init()`. -/
def connect (s : ClientCore) (resolver : Nat) : ClientCore × ConnectOutcome × List Ev :=
  if s.initialized then
    (s,
     .rejected (if s.client.isSome
       then "The client is already initialized"
       else "Cannot re-initialize a destroyed client"),
     [])
  else
    let s1 := { s with connectDefer := s.connectDefer.setDefer resolver }
    let r := init s1
    (r.1, .proceeded, r.2)

/-- The registration step of `invoke(request)`: tag the request with the fresh
correlation id, store the caller's defer in `_fetching` (a plain `Map.set`,
which silently replaces any entry under the same key), and send the tagged
request. -/
def invokeRegister (s : ClientCore) (id : String) (deferId : Nat) (kind : String) :
    ClientCore × List Ev :=
  let s1 := { s with fetching := jsMapSet s.fetching id deferId }
  (s1, sendRaw s1 (some id) (.genericReq kind))

/-- The three privileged update kinds of the router. -/
def isPrivileged : UpdateMsg → Bool
  | .updateOption _ _ => true
  | .updateConnectionState _ => true
  | .updateAuthorizationState _ => true
  | .other _ => false

/-- The merged default `tdlibParameters` (from `defaultOptions`). -/
def sampleParams : TdlibParameters :=
  ⟨none, none, none, true, false, "en", "1.0", "Unknown device", "Unknown", true⟩

/-- A concrete merged configuration: the library defaults plus credentials. -/
def sampleConfig : StrictConfig :=
  ⟨"_td_database", "_td_files", "", 2, 10, false, false, false, false, false,
   some 2222, some "hash", sampleParams⟩

/-- A connected client state with no pending requests and untouched gates. -/
def baseState : ClientCore :=
  ⟨sampleConfig, false, some (), true, false, .connectionStateConnecting,
   ⟨none, false⟩, false, none, none, ⟨none, false⟩, TDLIB_DEFAULT, []⟩

/-- Concrete user-flow callbacks for witnesses. -/
def sampleUser : LoginUser :=
  ⟨fun _ => "phone", fun _ => "code", fun _ _ => "pw",
   fun _ => "mail", fun _ => "mailcode", fun _ => ("First", none)⟩

/-- Concrete bot-flow callbacks for witnesses. -/
def sampleBot : LoginBot := ⟨fun _ => "token"⟩

/-- A client in the middle of a user login: connect gate already done, login
gate pending with its resolver attached, user login details installed. -/
def cexState : ClientCore :=
  { baseState with
    connectDefer := ⟨some 0, true⟩
    loginDefer := ⟨some 1, false⟩
    loginDetails := some (.user sampleUser) }

/-- A connected client on a legacy engine (version 1.8.0) whose connect gate
is pending with its resolver attached. -/
def legacyState : ClientCore := { baseState with connectDefer := ⟨some 0, false⟩ }

/-- The same client state on an engine at exactly the 1.8.6 threshold. -/
def modernState : ClientCore := { legacyState with version := ⟨1, 8, 6⟩ }

/-- A client with one outstanding pending request under id "a". -/
def corrState : ClientCore := { baseState with fetching := [("a", 5)] }

/-- A client with an existing pending entry ("a", 1), for the registration
collision counterexample. -/
def regState : ClientCore := { baseState with fetching := [("a", 1)] }

/-- A fresh, never-initialized client state. -/
def freshState : ClientCore := { baseState with client := none, initialized := false }

theorem applyCall_of_done {R E : Type} (d : TdlDeferred R E) (c : DCall R E)
    (h : d.done = true) : applyCall d c = (d, []) := by
  cases c <;> simp [applyCall, TdlDeferred.resolve, TdlDeferred.reject, h]

theorem runCalls_of_done {R E : Type} (d : TdlDeferred R E) (cs : List (DCall R E))
    (h : d.done = true) : runCalls d cs = (d, []) := by
  induction cs with
  | nil => rfl
  | cons c cs ih => simp [runCalls, applyCall_of_done d c h, ih]

theorem applyCall_live {R E : Type} (d : TdlDeferred R E) (k : Nat) (c : DCall R E)
    (h1 : d.innerDefer = some k) (h2 : d.done = false) :
    applyCall d c = ({ d with done := true }, [fireOf k c]) := by
  cases c <;> simp [applyCall, TdlDeferred.resolve, TdlDeferred.reject, h1, h2, fireOf]

/-- C3: while a resolver is attached, a deferred gate fires it exactly once,
with the value of the first resolve/reject call; every later call of either
kind is a silent no-op. -/
theorem deferred_first_call_wins {R E : Type} (d : TdlDeferred R E) (k : Nat)
    (c : DCall R E) (cs : List (DCall R E))
    (h1 : d.innerDefer = some k) (h2 : d.done = false) :
    runCalls d (c :: cs) = ({ d with done := true }, [fireOf k c]) := by
  simp [runCalls, applyCall_live d k c h1 h2,
    runCalls_of_done ({ d with done := true }) cs rfl]

/-- Witness for C3 at a concrete gate and call sequence. -/
theorem deferred_first_call_wins_witness :
    runCalls (⟨some 0, false⟩ : TdlDeferred Nat Nat) [.res 7, .rej 8, .res 9]
      = (⟨some 0, true⟩, [.resolved 0 7]) := by
  simpa [fireOf] using
    deferred_first_call_wins (⟨some 0, false⟩ : TdlDeferred Nat Nat) 0
      (.res 7) [.rej 8, .res 9] rfl rfl

/-- C4 counterexample: resolving a gate that has no registered resolver is a
silent no-op — the gate does not become done, nothing is held, and a
subsequently registered resolver has nothing fired at it (contradicting the
claim that the outcome is held and fires on later registration). -/
theorem deferred_no_resolver_drops_outcome_cex :
    ((⟨none, false⟩ : TdlDeferred Nat Nat).resolve 5).1.isDone = false ∧
    ((⟨none, false⟩ : TdlDeferred Nat Nat).resolve 5).2 = [] ∧
    (((⟨none, false⟩ : TdlDeferred Nat Nat).resolve 5).1.setDefer 0).done = false := by
  decide

/-- C4 (amended): a resolve/reject call made while no resolver is registered
is a silent no-op — the outcome is discarded, the gate stays pending, and the
call fires nothing, so a later-registered resolver is not fired by it. -/
theorem deferred_no_resolver_noop {R E : Type} (d : TdlDeferred R E) (r : R) (e : E)
    (h : d.innerDefer = none) :
    d.resolve r = (d, []) ∧ d.reject e = (d, []) := by
  constructor <;> simp [TdlDeferred.resolve, TdlDeferred.reject, h]

/-- Witness for the amended C4 at a concrete gate. -/
theorem deferred_no_resolver_noop_witness :
    (⟨none, false⟩ : TdlDeferred Nat Nat).resolve 5 = (⟨none, false⟩, []) ∧
    (⟨none, false⟩ : TdlDeferred Nat Nat).reject 6 = (⟨none, false⟩, []) :=
  deferred_no_resolver_noop (⟨none, false⟩ : TdlDeferred Nat Nat) 5 6 rfl

theorem jsMapGet_set (m : List (String × Nat)) (k : String) (v : Nat) :
    jsMapGet (jsMapSet m k v) k = some v := by
  induction m with
  | nil => simp [jsMapSet, jsMapGet]
  | cons p rest ih =>
    by_cases hp : p.1 = k <;> simp [jsMapSet, jsMapGet, hp, ih]

theorem jsMapGet_delete (m : List (String × Nat)) (k : String) :
    jsMapGet (jsMapDelete m k) k = none := by
  induction m with
  | nil => rfl
  | cons p rest ih =>
    by_cases hp : p.1 = k <;> simp [jsMapDelete, jsMapGet, hp, ih]

/-- C6 counterexample: registering a pending request under an id that already
has an outstanding entry does not fail — `Map.set` silently replaces the
existing entry (the old defer `1` is gone, the new defer `2` is stored). -/
theorem register_silent_replace_cex :
    (invokeRegister regState "a" 2 "getMe").1.fetching = [("a", 2)] ∧
    jsMapGet (invokeRegister regState "a" 2 "getMe").1.fetching "a" = some 2 := by
  decide

/-- C6 (amended): registration never fails — `invoke` unconditionally stores
the caller's defer under the generated id via `Map.set`, silently replacing
any existing entry with the same id (uniqueness rests on fresh random uuid
generation, not on a check). -/
theorem register_replaces_amended (s : ClientCore) (id : String) (deferId : Nat)
    (kind : String) :
    (invokeRegister s id deferId kind).1.fetching = jsMapSet s.fetching id deferId ∧
    jsMapGet (invokeRegister s id deferId kind).1.fetching id = some deferId := by
  refine ⟨rfl, ?_⟩
  simpa [invokeRegister] using jsMapGet_set s.fetching id deferId

/-- C10: the constructor throws a `TypeError` when neither `apiId` nor
`tdlibParameters.api_id` is provided, and likewise for the api hash; in
either case no client is created (the constructor performs no engine calls
before these checks). -/
theorem constructor_requires_credentials (o : ConfigInput) :
    (o.apiId = none → o.tdlibParameters.bind TdlibParametersInput.api_id = none →
      clientConstructor o = .error .typeErrorApiId) ∧
    (o.apiHash = none → o.tdlibParameters.bind TdlibParametersInput.api_hash = none →
      ∃ err, clientConstructor o = .error err) := by
  constructor
  · intro h1 h2
    simp [clientConstructor, h1, h2, truthyOptInt]
  · intro h1 h2
    unfold clientConstructor
    split
    · exact ⟨.typeErrorApiId, rfl⟩
    · simp [h1, h2, truthyOptStr]

/-- Witness for C10 at the empty options object. -/
theorem constructor_requires_credentials_witness :
    clientConstructor ⟨none, none, none⟩ = .error .typeErrorApiId ∧
    ∃ err, clientConstructor ⟨some 1, none, none⟩ = .error err :=
  ⟨(constructor_requires_credentials ⟨none, none, none⟩).1 rfl rfl,
   (constructor_requires_credentials ⟨some 1, none, none⟩).2 rfl rfl⟩

theorem resolve_fires_shape {R E : Type} (d : TdlDeferred R E) (r : R) :
    (d.resolve r).2 = [] ∨ ∃ k, (d.resolve r).2 = [.resolved k r] := by
  unfold TdlDeferred.resolve
  by_cases h : d.done = true
  · left; simp [h]
  · cases hi : d.innerDefer with
    | none => left; simp [h, hi]
    | some k => right; exact ⟨k, by simp [h, hi]⟩

theorem reject_fires_shape {R E : Type} (d : TdlDeferred R E) (e : E) :
    (d.reject e).2 = [] ∨ ∃ k, (d.reject e).2 = [.rejected k e] := by
  unfold TdlDeferred.reject
  by_cases h : d.done = true
  · left; simp [h]
  · cases hi : d.innerDefer with
    | none => left; simp [h, hi]
    | some k => right; exact ⟨k, by simp [h, hi]⟩

theorem catchError_frame (s : ClientCore) (v : ErrVal) :
    (catchError s v).1.fetching = s.fetching ∧
    sentReqs (catchError s v).2 = [] ∧
    cbCalls (catchError s v).2 = [] ∧
    fetchEvents (catchError s v).2 = [] ∧
    updateEmissions (catchError s v).2 = [] ∧
    emittedErrors (catchError s v).2 =
      (if s.connectDefer.isPending || s.loginDefer.isPending then [] else [v]) := by
  rcases reject_fires_shape s.connectDefer v with h1 | ⟨k1, h1⟩ <;>
    rcases reject_fires_shape s.loginDefer v with h2 | ⟨k2, h2⟩ <;>
    by_cases hc : s.connectDefer.isPending = true <;>
    by_cases hl : s.loginDefer.isPending = true <;>
    simp [catchError, hc, hl, h1, h2,
      sentReqs, cbCalls, fetchEvents, updateEmissions, emittedErrors]

theorem emitErrWithoutExtra_frame (s : ClientCore) (e : ErrorMsg) :
    (emitErrWithoutExtra s e).1.fetching = s.fetching ∧
    sentReqs (emitErrWithoutExtra s e).2 = [] ∧
    cbCalls (emitErrWithoutExtra s e).2 = [] ∧
    fetchEvents (emitErrWithoutExtra s e).2 = [] ∧
    updateEmissions (emitErrWithoutExtra s e).2 = [] ∧
    emittedErrors (emitErrWithoutExtra s e).2 =
      (if s.connectDefer.isPending || s.loginDefer.isPending then []
       else [.td { e with extra := none }]) :=
  catchError_frame s (.td { e with extra := none })

/-- C9: `destroy()` while requests are outstanding: the engine handle is
released, the `destroy` event is published exactly once, the `_fetching` map
is left untouched and none of its pending futures is resolved or rejected,
the function is total (no exception escapes), and a second `destroy()` is a
complete no-op. -/
theorem destroy_preserves_pending (s : ClientCore) (h : s.client = some ()) :
    (destroy s).1.fetching = s.fetching ∧
    (destroy s).2 = (if s.paused then [.engineDestroy, .emitResumeSignal, .emitDestroy]
                     else [.engineDestroy, .emitDestroy]) ∧
    fetchEvents (destroy s).2 = [] ∧
    destroy (destroy s).1 = ((destroy s).1, []) := by
  by_cases hp : s.paused = true <;>
    simp [destroy, resume, h, hp, fetchEvents]

/-- Witness for C9 at a concrete state with one outstanding request. -/
theorem destroy_preserves_pending_witness :
    (destroy corrState).1.fetching = [("a", 5)] ∧
    (destroy corrState).2 = [.engineDestroy, .emitDestroy] ∧
    fetchEvents (destroy corrState).2 = [] ∧
    destroy (destroy corrState).1 = ((destroy corrState).1, []) := by
  have h := destroy_preserves_pending corrState rfl
  simpa [corrState, baseState] using h

/-- C8: `connect()` on a fresh client proceeds and initializes; a second
`connect()` rejects with the second-initialization error, and `connect()`
after `destroy()` rejects with the cannot-re-initialize error; in both
failure cases the state is unchanged and nothing is initialized (no
effects). -/
theorem connect_twice_and_after_destroy (s : ClientCore) (k k2 : Nat)
    (hinit : s.initialized = false) (hcf : s.engineCreateFails = false) :
    (connect s k).2.1 = .proceeded ∧
    connect (connect s k).1 k2 =
      ((connect s k).1, .rejected "The client is already initialized", []) ∧
    connect (destroy (connect s k).1).1 k2 =
      ((destroy (connect s k).1).1, .rejected "Cannot re-initialize a destroyed client", []) := by
  by_cases hda : s.options.disableAuth = true <;>
    by_cases hp : s.paused = true <;>
    simp [connect, init, destroy, resume, hinit, hcf, hda, hp, TdlDeferred.setDefer]

/-- Witness for C8 at a concrete fresh state. -/
theorem connect_twice_and_after_destroy_witness :
    (connect freshState 0).2.1 = .proceeded ∧
    connect (connect freshState 0).1 1 =
      ((connect freshState 0).1, .rejected "The client is already initialized", []) ∧
    connect (destroy (connect freshState 0).1).1 1 =
      ((destroy (connect freshState 0).1).1,
       .rejected "Cannot re-initialize a destroyed client", []) :=
  connect_twice_and_after_destroy freshState 0 1 rfl rfl

theorem sentReqs_append (a b : List Ev) : sentReqs (a ++ b) = sentReqs a ++ sentReqs b := by
  induction a with
  | nil => rfl
  | cons ev t ih => cases ev <;> simp [sentReqs, ih]

theorem emittedErrors_append (a b : List Ev) :
    emittedErrors (a ++ b) = emittedErrors a ++ emittedErrors b := by
  induction a with
  | nil => rfl
  | cons ev t ih => cases ev <;> simp [emittedErrors, ih]

theorem cbCalls_append (a b : List Ev) : cbCalls (a ++ b) = cbCalls a ++ cbCalls b := by
  induction a with
  | nil => rfl
  | cons ev t ih => cases ev <;> simp [cbCalls, ih]

theorem fetchEvents_append (a b : List Ev) :
    fetchEvents (a ++ b) = fetchEvents a ++ fetchEvents b := by
  induction a with
  | nil => rfl
  | cons ev t ih => cases ev <;> simp [fetchEvents, ih]

theorem updateEmissions_append (a b : List Ev) :
    updateEmissions (a ++ b) = updateEmissions a ++ updateEmissions b := by
  induction a with
  | nil => rfl
  | cons ev t ih => cases ev <;> simp [updateEmissions, ih]

theorem authHasNeeded_frame (s : ClientCore) :
    (authHasNeeded s).1.fetching = s.fetching ∧
    fetchEvents (authHasNeeded s).2.1 = [] ∧
    updateEmissions (authHasNeeded s).2.1 = [] := by
  by_cases h : s.authNeeded = true
  · simp [authHasNeeded, h, fetchEvents, updateEmissions]
  · cases hl : s.loginListener <;>
      simp [authHasNeeded, h, hl, fetchEvents, updateEmissions]

theorem sendTdl_frame (s : ClientCore) (r : Req) :
    fetchEvents (sendTdl s r) = [] ∧ updateEmissions (sendTdl s r) = [] := by
  by_cases hcl : s.client.isSome = true <;>
    simp [sendTdl, sendRaw, hcl, fetchEvents, updateEmissions]

theorem handleAuthPostWait_frame (s : ClientCore) (a : AuthorizationState) :
    (handleAuthPostWait s a).1.fetching = s.fetching ∧
    fetchEvents (handleAuthPostWait s a).2.1 = [] ∧
    updateEmissions (handleAuthPostWait s a).2.1 = [] := by
  obtain ⟨hf, hfe, hue⟩ := authHasNeeded_frame s
  cases a
  case ready =>
    rcases resolve_fires_shape s.loginDefer () with hr | ⟨k, hr⟩ <;>
      simp [handleAuthPostWait, hr, fetchEvents, updateEmissions]
  all_goals (
    first
    | (rcases hx : (authHasNeeded s).2.2 with msg | ld
       · simp [handleAuthPostWait, hx, hf, hfe, hue]
       · cases ld <;>
           simp [handleAuthPostWait, hx, hf, hfe, hue, sendTdl_frame,
             fetchEvents, updateEmissions, fetchEvents_append, updateEmissions_append]
      )
    | simp [handleAuthPostWait, fetchEvents, updateEmissions])

theorem destroy_frame (s : ClientCore) :
    (destroy s).1.fetching = s.fetching ∧
    fetchEvents (destroy s).2 = [] ∧
    updateEmissions (destroy s).2 = [] := by
  cases hc : s.client <;> by_cases hp : s.paused = true <;>
    simp [destroy, resume, hc, hp, fetchEvents, updateEmissions]

theorem handleAuth_frame (s : ClientCore) (a : AuthorizationState) :
    (handleAuth s a).1.fetching = s.fetching ∧
    fetchEvents (handleAuth s a).2.1 = [] ∧
    updateEmissions (handleAuth s a).2.1 = [] := by
  cases a
  case waitTdlibParameters =>
    by_cases hv : s.version.gte TDLIB_1_8_6 = true
    · by_cases hu : s.options.tdlibParameters.underscoreTag.isSome = true
      · simp [handleAuth, hv, hu, fetchEvents, updateEmissions]
      · rcases resolve_fires_shape s.connectDefer () with hr | ⟨k, hr⟩ <;>
          by_cases hcl : s.client.isSome = true <;>
          simp [handleAuth, hv, hu, hr, hcl, sendTdl, sendRaw,
            fetchEvents, updateEmissions, fetchEvents_append, updateEmissions_append]
    · by_cases hcl : s.client.isSome = true <;>
        simp [handleAuth, hv, hcl, sendTdl, sendRaw, fetchEvents, updateEmissions]
  case waitEncryptionKey =>
    rcases resolve_fires_shape s.connectDefer () with hr | ⟨k, hr⟩ <;>
      by_cases hcl : s.client.isSome = true <;>
      simp [handleAuth, hr, hcl, sendTdl, sendRaw,
        fetchEvents, updateEmissions, fetchEvents_append, updateEmissions_append]
  case closed =>
    rcases reject_fires_shape s.connectDefer (.err "Received authorizationStateClosed")
      with hr1 | ⟨k1, hr1⟩ <;>
      rcases reject_fires_shape s.loginDefer (.err "Received authorizationStateClosed")
        with hr2 | ⟨k2, hr2⟩ <;>
      simp [handleAuth, hr1, hr2, destroy_frame,
        fetchEvents, updateEmissions, fetchEvents_append, updateEmissions_append]
  all_goals (
    by_cases hd : s.loginDefer.isDeferSet = true <;>
      by_cases han : s.authNeeded = true <;>
      simp [handleAuth, hd, han, handleAuthPostWait_frame,
        fetchEvents, updateEmissions, fetchEvents_append, updateEmissions_append])

theorem handleUpdate_frame (s : ClientCore) (u : UpdateMsg) :
    (handleUpdate s u).1.fetching = s.fetching ∧
    fetchEvents (handleUpdate s u).2 = [] := by
  cases u
  case updateOption name value =>
    cases value <;> by_cases hn : name = "version" <;>
      simp [handleUpdate, hn, fetchEvents]
  case updateConnectionState st => simp [handleUpdate, fetchEvents]
  case updateAuthorizationState a =>
    by_cases hda : s.options.disableAuth = true
    · simp [handleUpdate, hda, fetchEvents]
    · cases hth : (handleAuth s a).2.2 with
      | none =>
        have hfr := handleAuth_frame s a
        simp [handleUpdate, hda, hth, hfr.1, hfr.2.1, fetchEvents, fetchEvents_append]
      | some msg =>
        have hfr := handleAuth_frame s a
        have hce := catchError_frame (handleAuth s a).1 (.tdl msg)
        simp [handleUpdate, hda, hth, hfr.1, hfr.2.1, hce.1, hce.2.2.2.1,
          fetchEvents, fetchEvents_append]
  case other kind =>
    by_cases hs : (s.options.skipOldUpdates = true ∧
        s.connectionState = .connectionStateUpdating) <;>
      simp [handleUpdate, hs, fetchEvents]

theorem handleUserError_frame (s : ClientCore) (e : ErrorMsg) (u : LoginUser) :
    (handleUserError s e u).1.fetching = s.fetching ∧
    fetchEvents (handleUserError s e u).2 = [] := by
  have hem := emitErrWithoutExtra_frame s e
  by_cases hcl : s.client.isSome = true <;>
    by_cases h1 : (e.message = "PHONE_CODE_EMPTY" ∨ e.message = "PHONE_CODE_INVALID") <;>
    by_cases h2 : e.message = "PHONE_NUMBER_INVALID" <;>
    by_cases h3 : e.message = "PASSWORD_HASH_INVALID" <;>
    simp [handleUserError, sendTdl, sendRaw, hcl, h1, h2, h3,
      hem.1, hem.2.2.2.1, fetchEvents, fetchEvents_append]

theorem handleBotError_frame (s : ClientCore) (e : ErrorMsg) (b : LoginBot) :
    (handleBotError s e b).1.fetching = s.fetching ∧
    fetchEvents (handleBotError s e b).2 = [] := by
  have hem := emitErrWithoutExtra_frame s e
  by_cases hcl : s.client.isSome = true <;>
    by_cases h1 : e.message = "ACCESS_TOKEN_INVALID" <;>
    simp [handleBotError, sendTdl, sendRaw, hcl, h1,
      hem.1, hem.2.2.2.1, fetchEvents, fetchEvents_append]

theorem handleError_gone (s : ClientCore) (e : ErrorMsg)
    (h : ∀ id, e.extra = some id → jsMapGet s.fetching id = none) :
    (handleError s e).1.fetching = s.fetching ∧
    fetchEvents (handleError s e).2 = [] := by
  cases hex : e.extra with
  | none => simp [handleError, hex, fetchEvents]
  | some id =>
    have hget := h id hex
    by_cases hm : id = TDL_MAGIC
    · subst hm
      cases hld : s.loginDetails with
      | none =>
        have hem := emitErrWithoutExtra_frame s e
        simp [handleError, hex, hget, hld, hem.1, hem.2.2.2.1]
      | some ld =>
        cases ld with
        | user u =>
          have hfr := handleUserError_frame s e u
          simp [handleError, hex, hget, hld, hfr.1, hfr.2]
        | bot b =>
          have hfr := handleBotError_frame s e b
          simp [handleError, hex, hget, hld, hfr.1, hfr.2]
    · simp [handleError, hex, hget, hm, fetchEvents]

/-- C7: resolving or rejecting the same correlation id twice has the same
effect on the Request Correlator as doing it once: the first arrival invokes
and removes the pending entry, and the second arrival touches neither the map
nor any pending future (the entry no longer exists, so the message falls
through to the router's update/uncorrelated-error fallback). -/
theorem correlator_idempotent (s : ClientCore) (id : String) (d : Nat) (u : UpdateMsg)
    (e : ErrorMsg) (hget : jsMapGet s.fetching id = some d) (hex : e.extra = some id) :
    (handleResponse s (.nonError (some id) u)).1.fetching = jsMapDelete s.fetching id ∧
    fetchEvents (handleResponse s (.nonError (some id) u)).2 = [.fetchResolve d u] ∧
    fetchEvents (handleResponse (handleResponse s (.nonError (some id) u)).1
      (.nonError (some id) u)).2 = [] ∧
    (handleResponse (handleResponse s (.nonError (some id) u)).1
      (.nonError (some id) u)).1.fetching
      = (handleResponse s (.nonError (some id) u)).1.fetching ∧
    (handleError s e).1.fetching = jsMapDelete s.fetching id ∧
    fetchEvents (handleError s e).2 = [.fetchReject d { e with extra := none }] ∧
    fetchEvents (handleError (handleError s e).1 e).2 = [] ∧
    (handleError (handleError s e).1 e).1.fetching = (handleError s e).1.fetching := by
  have h1 : handleResponse s (.nonError (some id) u)
      = ({ s with fetching := jsMapDelete s.fetching id },
         [.emitResponse, .fetchResolve d u]) := by
    simp [handleResponse, hget]
  have h3 : handleError s e
      = ({ s with fetching := jsMapDelete s.fetching id },
         [.fetchReject d { e with extra := none }]) := by
    simp [handleError, hex, hget]
  have hgone : jsMapGet (jsMapDelete s.fetching id) id = none := jsMapGet_delete _ _
  have h4 := handleError_gone ({ s with fetching := jsMapDelete s.fetching id }) e
    (fun id2 hid2 => by
      rw [hex] at hid2
      injection hid2 with h5
      rw [← h5]
      exact hgone)
  refine ⟨?_, ?_, ?_, ?_, ?_, ?_, ?_, ?_⟩
  · rw [h1]
  · rw [h1]
    simp [fetchEvents]
  · rw [h1]
    by_cases hm : id = TDL_MAGIC
    · subst hm
      simp [handleResponse, hgone, fetchEvents]
    · have hf := handleUpdate_frame { s with fetching := jsMapDelete s.fetching id } u
      simp [handleResponse, hgone, hm, hf.2, fetchEvents, fetchEvents_append]
  · rw [h1]
    by_cases hm : id = TDL_MAGIC
    · subst hm
      simp [handleResponse, hgone]
    · have hf := handleUpdate_frame { s with fetching := jsMapDelete s.fetching id } u
      simp [handleResponse, hgone, hm, hf.1]
  · rw [h3]
  · rw [h3]
    simp [fetchEvents]
  · rw [h3]
    exact h4.2
  · rw [h3]
    exact h4.1

/-- Witness for C7 at a concrete state with pending id "a". -/
theorem correlator_idempotent_witness :
    (handleResponse corrState (.nonError (some "a") (.other "ok"))).1.fetching = [] ∧
    fetchEvents (handleResponse corrState (.nonError (some "a") (.other "ok"))).2
      = [.fetchResolve 5 (.other "ok")] ∧
    fetchEvents (handleResponse (handleResponse corrState (.nonError (some "a") (.other "ok"))).1
      (.nonError (some "a") (.other "ok"))).2 = [] ∧
    fetchEvents (handleError corrState ⟨"m", some "a"⟩).2
      = [.fetchReject 5 ⟨"m", none⟩] ∧
    fetchEvents (handleError (handleError corrState ⟨"m", some "a"⟩).1 ⟨"m", some "a"⟩).2 = [] := by
  have h := correlator_idempotent corrState "a" 5 (.other "ok") ⟨"m", some "a"⟩ (by decide) rfl
  refine ⟨?_, h.2.1, h.2.2.1, h.2.2.2.2.2.1, h.2.2.2.2.2.2.1⟩
  rw [h.1]
  decide

/-- C5 counterexample: on a legacy engine (stored version 1.8.0, below the
1.8.6 threshold) the wait-tdlib-parameters state sends exactly one handshake
request in the nested shape but does NOT resolve the connect gate — the gate
is left exactly as it was, still pending, and no resolver fires
(contradicting "on send the connectGate is resolved"). -/
theorem legacy_handshake_gate_unresolved_cex :
    (handleAuth legacyState .waitTdlibParameters).2.1 =
      [.send (some TDL_MAGIC) (.setTdlibParametersNested sampleConfig)] ∧
    (handleAuth legacyState .waitTdlibParameters).1.connectDefer.isDone = false ∧
    (handleAuth legacyState .waitTdlibParameters).1.connectDefer = ⟨some 0, false⟩ := by
  decide

/-- C5 (amended): on wait-tdlib-parameters exactly one handshake request is
sent, flattened iff the stored engine version is at least the 1.8.6
threshold; the connect gate's resolve is invoked exactly in the flattened
branch, while the legacy nested branch leaves the whole state (and in
particular the connect gate) untouched — it is resolved later, on
wait-encryption-key. -/
theorem handshake_shape_and_gate (s : ClientCore)
    (hc : s.client = some ()) (hu : s.options.tdlibParameters.underscoreTag = none) :
    (s.version.gte TDLIB_1_8_6 = true →
      handleAuth s .waitTdlibParameters =
        ({ s with connectDefer := (s.connectDefer.resolve ()).1 },
         [.send (some TDL_MAGIC) (.setTdlibParametersFlat s.options)]
           ++ (s.connectDefer.resolve ()).2.map .connectFire, none)) ∧
    (s.version.gte TDLIB_1_8_6 = false →
      handleAuth s .waitTdlibParameters =
        (s, [.send (some TDL_MAGIC) (.setTdlibParametersNested s.options)], none)) := by
  constructor <;> intro hv <;>
    simp [handleAuth, hv, hu, sendTdl, sendRaw, hc]

/-- Witness for the amended C5 at concrete modern and legacy states. -/
theorem handshake_shape_and_gate_witness :
    handleAuth modernState .waitTdlibParameters =
      ({ modernState with connectDefer := (modernState.connectDefer.resolve ()).1 },
       [.send (some TDL_MAGIC) (.setTdlibParametersFlat modernState.options)]
         ++ (modernState.connectDefer.resolve ()).2.map .connectFire, none) ∧
    handleAuth legacyState .waitTdlibParameters =
      (legacyState, [.send (some TDL_MAGIC) (.setTdlibParametersNested legacyState.options)],
       none) :=
  ⟨(handshake_shape_and_gate modernState rfl rfl).1 (by decide),
   (handshake_shape_and_gate legacyState rfl rfl).2 (by decide)⟩

/-- C1 counterexample: a sentinel-correlated auth error whose message is not
in the retry table ("FLOOD_WAIT") arrives while the login gate is still
pending — the handler publishes NO `error` event (the claim demands exactly
one); instead it rejects the pending login gate with the stripped error. -/
theorem auth_error_untabled_rejects_login_gate_cex :
    emittedErrors (handleError cexState ⟨"FLOOD_WAIT", some TDL_MAGIC⟩).2 = [] ∧
    (handleError cexState ⟨"FLOOD_WAIT", some TDL_MAGIC⟩).2 =
      [.loginFire (.rejected 1 (.td ⟨"FLOOD_WAIT", none⟩))] := by
  decide

/-- C1 (amended): for a sentinel-correlated auth error, each user-flow table
message triggers exactly one resend of the corresponding request built from
the matching callback invoked with retry flag `true` (likewise
ACCESS_TOKEN_INVALID in the bot flow); any message outside the table triggers
no resend and no callback, and routes the stripped error to the shared error
path, which publishes exactly one `error` event only when neither the connect
gate nor the login gate is pending — otherwise it rejects the pending gates
instead and publishes nothing on `error`. -/
theorem auth_error_table_amended (s : ClientCore) (e : ErrorMsg)
    (he : e.extra = some TDL_MAGIC) (hm : jsMapGet s.fetching TDL_MAGIC = none)
    (hc : s.client = some ()) :
    (∀ u : LoginUser, s.loginDetails = some (.user u) →
      ((e.message = "PHONE_CODE_EMPTY" ∨ e.message = "PHONE_CODE_INVALID") →
        handleError s e = (s, [.callCb (.getAuthCode true),
          .send (some TDL_MAGIC) (.checkAuthenticationCode (u.getAuthCode true))])) ∧
      (e.message = "PHONE_NUMBER_INVALID" →
        handleError s e = (s, [.callCb (.getPhoneNumber true),
          .send (some TDL_MAGIC) (.setAuthenticationPhoneNumber (u.getPhoneNumber true))])) ∧
      (e.message = "PASSWORD_HASH_INVALID" →
        handleError s e = (s, [.callCb (.getPassword "" true),
          .send (some TDL_MAGIC) (.checkAuthenticationPassword (u.getPassword "" true))])) ∧
      (e.message ∉ (["PHONE_CODE_EMPTY", "PHONE_CODE_INVALID",
                     "PHONE_NUMBER_INVALID", "PASSWORD_HASH_INVALID"] : List String) →
        handleError s e = emitErrWithoutExtra s e ∧
        sentReqs (handleError s e).2 = [] ∧
        cbCalls (handleError s e).2 = [] ∧
        emittedErrors (handleError s e).2 =
          (if s.connectDefer.isPending || s.loginDefer.isPending then []
           else [.td { e with extra := none }]))) ∧
    (∀ b : LoginBot, s.loginDetails = some (.bot b) →
      (e.message = "ACCESS_TOKEN_INVALID" →
        handleError s e = (s, [.callCb (.getToken true),
          .send (some TDL_MAGIC) (.checkAuthenticationBotToken (b.getToken true))])) ∧
      (e.message ≠ "ACCESS_TOKEN_INVALID" →
        handleError s e = emitErrWithoutExtra s e ∧
        sentReqs (handleError s e).2 = [] ∧
        cbCalls (handleError s e).2 = [] ∧
        emittedErrors (handleError s e).2 =
          (if s.connectDefer.isPending || s.loginDefer.isPending then []
           else [.td { e with extra := none }]))) := by
  have hem := emitErrWithoutExtra_frame s e
  constructor
  · intro u hld
    have hred : handleError s e = handleUserError s e u := by
      simp [handleError, he, hm, hld]
    refine ⟨?_, ?_, ?_, ?_⟩
    · rintro (h1 | h1) <;>
        simp [hred, handleUserError, h1, sendTdl, sendRaw, hc]
    · intro h1
      simp [hred, handleUserError, h1, sendTdl, sendRaw, hc]
    · intro h1
      simp [hred, handleUserError, h1, sendTdl, sendRaw, hc]
    · intro h1
      simp only [List.mem_cons, List.not_mem_nil, or_false, not_or] at h1
      obtain ⟨n1, n2, n3, n4⟩ := h1
      have hfall : handleError s e = emitErrWithoutExtra s e := by
        simp [hred, handleUserError, n1, n2, n3, n4]
      exact ⟨hfall, by rw [hfall]; exact hem.2.1, by rw [hfall]; exact hem.2.2.1,
        by rw [hfall]; exact hem.2.2.2.2.2⟩
  · intro b hld
    have hred : handleError s e = handleBotError s e b := by
      simp [handleError, he, hm, hld]
    refine ⟨?_, ?_⟩
    · intro h1
      simp [hred, handleBotError, h1, sendTdl, sendRaw, hc]
    · intro h1
      have hfall : handleError s e = emitErrWithoutExtra s e := by
        simp [hred, handleBotError, h1]
      exact ⟨hfall, by rw [hfall]; exact hem.2.1, by rw [hfall]; exact hem.2.2.1,
        by rw [hfall]; exact hem.2.2.2.2.2⟩

/-- Witness for the amended C1: a table row and an untabled message at a
concrete mid-login state. -/
theorem auth_error_table_amended_witness :
    handleError cexState ⟨"PHONE_NUMBER_INVALID", some TDL_MAGIC⟩ =
      (cexState, [.callCb (.getPhoneNumber true),
        .send (some TDL_MAGIC) (.setAuthenticationPhoneNumber (sampleUser.getPhoneNumber true))]) ∧
    emittedErrors (handleError cexState ⟨"FLOOD_WAIT_42", some TDL_MAGIC⟩).2 = [] := by
  have h1 := ((auth_error_table_amended cexState ⟨"PHONE_NUMBER_INVALID", some TDL_MAGIC⟩
    rfl (by decide) rfl).1 sampleUser rfl).2.1 rfl
  have h2 := ((auth_error_table_amended cexState ⟨"FLOOD_WAIT_42", some TDL_MAGIC⟩
    rfl (by decide) rfl).1 sampleUser rfl).2.2.2 (by decide)
  refine ⟨h1, ?_⟩
  rw [h2.2.2.2]
  decide

theorem routeAll_append (s : ClientCore) (xs ys : List UpdateMsg) :
    routeAll s (xs ++ ys) =
      ((routeAll (routeAll s xs).1 ys).1,
       (routeAll s xs).2 ++ (routeAll (routeAll s xs).1 ys).2) := by
  induction xs generalizing s with
  | nil => simp [routeAll]
  | cons u rest ih => simp [routeAll, ih]

theorem handleUpdate_emissions (s : ClientCore) (u : UpdateMsg) :
    updateEmissions (handleUpdate s u).2 =
      (if isPrivileged u = true
          ∨ ¬(s.options.skipOldUpdates = true
              ∧ s.connectionState = .connectionStateUpdating)
       then [u] else []) := by
  cases u
  case updateOption name value =>
    cases value <;> by_cases hn : name = "version" <;>
      simp [handleUpdate, isPrivileged, hn, updateEmissions]
  case updateConnectionState st =>
    simp [handleUpdate, isPrivileged, updateEmissions]
  case updateAuthorizationState a =>
    by_cases hda : s.options.disableAuth = true
    · simp [handleUpdate, hda, isPrivileged, updateEmissions]
    · have hfr := handleAuth_frame s a
      cases hth : (handleAuth s a).2.2 with
      | none =>
        simp [handleUpdate, hda, hth, isPrivileged, updateEmissions,
          hfr.2.2, updateEmissions_append]
      | some msg =>
        have hce := catchError_frame (handleAuth s a).1 (.tdl msg)
        simp [handleUpdate, hda, hth, isPrivileged, updateEmissions,
          hfr.2.2, hce.2.2.2.2.1, updateEmissions_append]
  case other kind =>
    by_cases hs : (s.options.skipOldUpdates = true ∧
        s.connectionState = .connectionStateUpdating) <;>
      simp [handleUpdate, hs, isPrivileged, updateEmissions]

/-- C2: for every message sequence fed to the router, each message's step is
the next link of the fold, and its `update` publications are exactly one copy
of the message when it is privileged (option / connection-state /
authorization-state) or when suppression does not apply, and exactly none
precisely when the message is unprivileged, `skipOldUpdates` is enabled, and
the ConnectionState stored at that point is the updating state. -/
theorem router_privileged_and_suppression (s0 : ClientCore) (pre : List UpdateMsg)
    (u : UpdateMsg) :
    routeAll s0 (pre ++ [u]) =
      ((handleUpdate (routeAll s0 pre).1 u).1,
       (routeAll s0 pre).2 ++ (handleUpdate (routeAll s0 pre).1 u).2) ∧
    updateEmissions (handleUpdate (routeAll s0 pre).1 u).2 =
      (if isPrivileged u = true
          ∨ ¬((routeAll s0 pre).1.options.skipOldUpdates = true
              ∧ (routeAll s0 pre).1.connectionState = .connectionStateUpdating)
       then [u] else []) := by
  refine ⟨?_, handleUpdate_emissions (routeAll s0 pre).1 u⟩
  rw [routeAll_append]
  simp [routeAll]

end Tdl
